import Mathlib

/-!
Shallow embedding of the task-planning-agent repository
(planner + websearch sub-task controller) and proofs of the
specification claims about it.

Sources embedded:
  - src/state/state.py            : Task, update_task (task-list reducer)
  - src/agents/websearch/state.py : SearchResult, merge_search_results
  - src/agents/websearch/nodes.py : execute_search (incl. clean_text),
                                    evaluate_task_result
  - src/agents/planner/nodes.py   : plan_tasks, generate_final_answer

Python dict keys that may be absent are modelled as `Option` fields; a
`raise` that escapes a node is modelled as `Except.error ()`; the
language-model and search-provider collaborators are abstracted into
function arguments so that theorems quantify over their behavior.
-/

namespace Agent

/-- `Task` TypedDict from src/state/state.py.  `task_result` is an
`Option` because the planner creates task dicts without that key; the
websearch agent fills it in on completion. -/
structure Task where
  task_id : String
  task_description : String
  task_result : Option String
deriving Repr, DecidableEq

/-- `update_task` from src/state/state.py: the reducer for the shared task
list.  An empty update returns the existing list unchanged; otherwise the
existing entries whose id occurs in the update are dropped and the update
is appended. -/
def update_task (existing : List Task) («new» : List Task) : List Task :=
  if «new» = [] then existing
  else
    let new_task_ids := «new».map Task.task_id
    let updated := existing.filter (fun task => task.task_id ∉ new_task_ids)
    updated ++ «new»

/-- `SearchResult` TypedDict from src/agents/websearch/state.py.
`content` is `Optional` and the degraded branch of `execute_search` omits
the key entirely, so it is an `Option` here. -/
structure SearchResult where
  query : String
  title : String
  url : String
  snippet : String
  content : Option String
deriving Repr, DecidableEq

/-- `merge_search_results` from src/agents/websearch/state.py: the reducer
for the per-task search-result channel.  `none` models Python `None`; a
Python falsy (empty) list on the left behaves like the `not left` test in
the source, and an explicit empty list on the right clears the channel. -/
def merge_search_results (left right : Option (List SearchResult)) :
    List SearchResult :=
  match right with
  | none => left.getD []
  | some r =>
    if r = [] then []
    else
      match left with
      | none => r
      | some l => if l = [] then r else l ++ r

/-- The `Literal["search", "generate"]` values of the evaluator's `need`
field in src/agents/websearch/nodes.py. -/
inductive Need where
  | search
  | generate
deriving Repr, DecidableEq

/-- `TaskEvaluation`, the structured-output schema of
`evaluate_task_result` in src/agents/websearch/nodes.py. -/
structure TaskEvaluation where
  is_satisfactory : Bool
  need : Option Need
  reason : String
  feedback : Option String
deriving Repr, DecidableEq

/-- The fields of `WebSearchState` (src/agents/websearch/state.py) that the
sub-task controller reads and writes: the `PrivateState` channels plus the
shared `tasks` channel inherited from `BaseState`. -/
structure WebSearchState where
  task_id : String
  task_description : String
  task_result : Option String
  search_queries : List String
  search_results : List SearchResult
  feedback : Option String
  attempt : Nat
  completed : Bool
  tasks : List Task
deriving Repr, DecidableEq

/-- The `goto` targets that `evaluate_task_result` can return. -/
inductive EvalGoto where
  | «END»
  | generate_search_queries
  | generate_task_result
deriving Repr, DecidableEq

/-- The `update` dict of the `Command` returned by `evaluate_task_result`.
Every branch writes `attempt`; the other keys are present only on some
branches, so they are `Option` (with `none` for an absent key). -/
structure EvalUpdate where
  attempt : Nat
  completed : Option Bool
  tasks : Option (List Task)
  search_results : Option (List SearchResult)
  feedback : Option (Option String)
deriving Repr, DecidableEq

/-- A `Command(update=..., goto=...)` as returned by
`evaluate_task_result`. -/
structure EvalCommand where
  update : EvalUpdate
  goto : EvalGoto
deriving Repr, DecidableEq

/-- `evaluate_task_result` from src/agents/websearch/nodes.py, with the
model call abstracted into the `evaluation` argument (a model-call failure
re-raises out of the node and never reaches the decision logic below).
`state.get("task_result", "")` becomes `state.task_result.getD ""`. -/
def evaluate_task_result (state : WebSearchState)
    (evaluation : TaskEvaluation) : EvalCommand :=
  let task_description := state.task_description
  let task_result := state.task_result.getD ""
  let attempt := state.attempt + 1
  if evaluation.is_satisfactory = true ∨ attempt ≥ 2 then
    let task_id := state.task_id
    { update := { attempt := attempt
                  completed := some true
                  tasks := some [{ task_id := task_id
                                   task_description := task_description
                                   task_result := some task_result }]
                  search_results := none
                  feedback := none }
      goto := .«END» }
  else if evaluation.need = some .search then
    { update := { attempt := attempt
                  completed := none
                  tasks := none
                  search_results := some []
                  feedback := some evaluation.feedback }
      goto := .generate_search_queries }
  else if evaluation.need = some .generate then
    { update := { attempt := attempt
                  completed := none
                  tasks := none
                  search_results := none
                  feedback := some evaluation.feedback }
      goto := .generate_task_result }
  else
    -- 念の為: is_satisfactory is false but need is None; the node logs a
    -- warning and force-completes the task.
    let task_id := state.task_id
    { update := { attempt := attempt
                  completed := some true
                  tasks := some [{ task_id := task_id
                                   task_description := task_description
                                   task_result := some task_result }]
                  search_results := none
                  feedback := none }
      goto := .«END» }

/-- Application of an evaluator update to the sub-task state, channel by
channel, with the reducers declared in the state schemas: `attempt`,
`completed`, `feedback` are plain last-value channels, `search_results`
merges through `merge_search_results`, `tasks` through `update_task`; an
absent key leaves its channel untouched. -/
def applyEvalUpdate (state : WebSearchState) (u : EvalUpdate) :
    WebSearchState :=
  { state with
    attempt := u.attempt
    completed := u.completed.getD state.completed
    feedback := match u.feedback with
      | none => state.feedback
      | some f => f
    search_results := match u.search_results with
      | none => state.search_results
      | some r => merge_search_results (some state.search_results) (some r)
    tasks := match u.tasks with
      | none => state.tasks
      | some t => update_task state.tasks t }

/-- The evaluation rounds of one sub-task: each round runs
`evaluate_task_result` on the current state with that round's evaluator
output and applies the resulting update; the loop stops when the command
routes to `END`.  The query/search/result nodes between two evaluations
never write the `attempt` or `completed` channels, so they are elided.
Returns the final state and whether the task was marked complete. -/
def eval_rounds (state : WebSearchState) :
    List TaskEvaluation → WebSearchState × Bool
  | [] => (state, false)
  | e :: es =>
    let c := evaluate_task_result state e
    let state' := applyEvalUpdate state c.update
    if c.goto = .«END» then (state', true)
    else eval_rounds state' es

/-! ### execute_search and clean_text -/

/-- The whitespace class used by Python's `\s` (for the `re.sub` in
`clean_text`) and `str.strip()`, restricted to its ASCII part
`[ \t\n\r\f\v]`; the page texts considered here contain no further
Unicode whitespace. -/
def isPySpace (c : Char) : Bool :=
  c = ' ' || c = '\t' || c = '\n' || c = '\r' || c = '\x0b' || c = '\x0c'

/-- Index one past the last `'\n'` in `l`, or 0 if `l` has none.  This is
where a greedy match of `\n\s*\n+` ends inside the whitespace run `l`. -/
def lastNewlinePos (l : List Char) : Nat :=
  match l with
  | [] => 0
  | c :: rest =>
    let r := lastNewlinePos rest
    if r = 0 then (if c = '\n' then 1 else 0) else r + 1

/-- One pass of `re.sub(r'\n\s*\n+', '\n\n', text)` from `clean_text`,
on the character list with explicit fuel (the fuel starts at the list
length and never runs out, making the function structurally recursive and
kernel-computable).  Each leftmost match starts at a newline, spans the
following whitespace run greedily, and ends just after the last newline
of that run; it is replaced by two newlines and scanning resumes after
the match. -/
def collapseAux : Nat → List Char → List Char
  | 0, l => l
  | _ + 1, [] => []
  | fuel + 1, c :: rest =>
    if c = '\n' then
      let ws := rest.takeWhile isPySpace
      if '\n' ∈ ws then
        '\n' :: '\n' :: collapseAux fuel (rest.drop (lastNewlinePos ws))
      else c :: collapseAux fuel rest
    else c :: collapseAux fuel rest

/-- `re.sub(r'\n\s*\n+', '\n\n', text)` from `clean_text`. -/
def collapseBlankRuns (l : List Char) : List Char :=
  collapseAux l.length l

/-- Python `str.strip()` (whitespace strip on both ends). -/
def pyStrip (s : String) : String :=
  String.mk (((s.data.dropWhile isPySpace).reverse.dropWhile
    isPySpace).reverse)

/-- Python string slicing `s[:n]`. -/
def pySlice (s : String) (n : Nat) : String :=
  String.mk (s.data.take n)

/-- `clean_text` from `execute_search` in src/agents/websearch/nodes.py:
collapse blank runs, split into lines, strip each line, drop empty lines,
re-join with newlines. -/
def clean_text (text : String) : String :=
  let text := String.mk (collapseBlankRuns text.data)
  let lines := (text.splitOn "\n").map pyStrip
  let lines := lines.filter (fun line => line ≠ "")
  String.intercalate "\n" lines

/-- One raw hit of `search.results(query, num_results=...)`; `snippet`
carries `result.get('snippet', '')`. -/
structure ProviderResult where
  link : String
  title : String
  snippet : String
deriving Repr, DecidableEq

/-- The single `goto` target of `execute_search`. -/
inductive SearchGoto where
  | generate_task_result
deriving Repr, DecidableEq

/-- The `Command(update={"search_results": ...}, goto=...)` returned by
`execute_search`. -/
structure SearchCommand where
  search_results : List SearchResult
  goto : SearchGoto
deriving Repr, DecidableEq

/-- The body of the per-result loop of `execute_search`: fetch the page
under the 15-second timeout (`fetch url t` models
`WebBaseLoader(url).load()` under `asyncio.wait_for(..., timeout=t)`,
with `.error` covering both a loader exception and the timeout, i.e. the
inner per-result `try/except`); on success store the cleaned text
truncated to 2500 characters as `content`, on failure store the
snippet-only entry without a `content` key. -/
def fetch_result (query : String)
    (fetch : String → Nat → Except Unit String)
    (result : ProviderResult) : SearchResult :=
  match fetch result.link 15 with
  | .ok raw_content =>
    let cleaned_content := clean_text raw_content
    let content := cleaned_content
    { query := query
      title := result.title
      url := result.link
      content := some (pySlice content 2500)
      snippet := result.snippet }
  | .error _ =>
    { query := query
      title := result.title
      url := result.link
      snippet := result.snippet
      content := none }

/-- `execute_search` from src/agents/websearch/nodes.py.  The Google
client is abstracted: `provider q n` models
`search.results(q, num_results=n)`, returning `.error` when the call
raises.  The outer `try/except` of the node appears as the `.error`
branch of `provider`: it returns an empty update instead of
re-raising. -/
def execute_search (query : String)
    (provider : String → Nat → Except Unit (List ProviderResult))
    (fetch : String → Nat → Except Unit String) : SearchCommand :=
  if query = "" then
    { search_results := [], goto := .generate_task_result }
  else
    let num_results := 2
    match provider query num_results with
    | .error _ => { search_results := [], goto := .generate_task_result }
    | .ok results =>
      if results = [] then
        { search_results := [], goto := .generate_task_result }
      else
        let search_results := results.map (fetch_result query fetch)
        { search_results := search_results, goto := .generate_task_result }

/-! ### Planner nodes -/

/-- The `Task` item of the planner's structured `TaskPlan` schema (just a
description). -/
structure PlanTask where
  task_description : String
deriving Repr, DecidableEq

/-- The planner's structured-output schema `TaskPlan`. -/
structure TaskPlan where
  tasks : List PlanTask
  reason : String
deriving Repr, DecidableEq

/-- A `Send("websearch", {...})` packet dispatched by `plan_tasks`: the
target node and the initial sub-task state fields. -/
structure SendPacket where
  node : String
  task_id : String
  task_description : String
  attempt : Nat
  completed : Bool
deriving Repr, DecidableEq

/-- The `Command(update={"tasks": ...}, goto=sends)` returned by
`plan_tasks`. -/
structure PlannerCommand where
  update_tasks : List Task
  goto : List SendPacket
deriving Repr, DecidableEq

/-- `plan_tasks` from src/agents/planner/nodes.py, with the model call
abstracted into the `plan` argument.  A plan with zero tasks hits the
bare `raise`, which the enclosing `except` logs and re-raises: the node
fails (`Except.error`).  Otherwise one `Send` per task is dispatched and
one initial `Task` per description is put on the shared task list, both
under the stable id `str(idx)` of the task's position. -/
def plan_tasks (plan : TaskPlan) : Except Unit PlannerCommand :=
  if plan.tasks = [] then .error ()
  else
    let sends := plan.tasks.enum.map (fun p =>
      { node := "websearch"
        task_id := toString p.1
        task_description := p.2.task_description
        attempt := 0
        completed := false : SendPacket })
    let initial_tasks := plan.tasks.enum.map (fun p =>
      { task_id := toString p.1
        task_description := p.2.task_description
        task_result := none : Task })
    .ok { update_tasks := initial_tasks, goto := sends }

/-- One line of the `task_results_text` built by `generate_final_answer`:
`f"【タスク{idx+1}】{task['task_description']}\n結果: {task['task_result']}"`,
where a missing `task_result` key raises (`KeyError`).  `idx` is the
`enumerate` index of the task. -/
def task_lines : Nat → List Task → Except Unit (List String)
  | _, [] => .ok []
  | idx, t :: ts =>
    match t.task_result with
    | none => .error ()
    | some r =>
      (task_lines (idx + 1) ts).map (fun rest =>
        ("【タスク" ++ toString (idx + 1) ++ "】" ++ t.task_description
          ++ "\n結果: " ++ r) :: rest)

/-- `task_results_text` of `generate_final_answer`: the per-task lines
joined with `"\n\n"`. -/
def task_results_text (tasks : List Task) : Except Unit String :=
  (task_lines 0 tasks).map (String.intercalate "\n\n")

/-- The content of the `HumanMessage` built by `generate_final_answer`
from the user query and the joined task results. -/
def finalPrompt (user_query text : String) : String :=
  "\n## ユーザーの質問:\n" ++ user_query
    ++ "\n\n## タスクの実行結果:\n" ++ text
    ++ "\n\n上記のタスク結果を統合して、ユーザーの質問に対する包括的な回答を生成してください。\n"

/-- The `Command` returned by `generate_final_answer`: the appended
`AIMessage` content and the `final_answer` channel value (its `goto` is
always `END`). -/
structure FinalAnswerCommand where
  message : String
  final_answer : String
deriving Repr, DecidableEq

/-- `generate_final_answer` from src/agents/planner/nodes.py, with the
model call abstracted into `modelReply` (a function of the variable
human-message content; the system prompt is a constant string).
`messages` carries the contents of the message history; an empty task
list hits the bare `raise`, and an empty history raises `IndexError` at
`messages[0]`. -/
def generate_final_answer (tasks : List Task) (messages : List String)
    (modelReply : String → String) : Except Unit FinalAnswerCommand :=
  if tasks = [] then .error ()
  else
    match task_results_text tasks with
    | .error _ => .error ()
    | .ok text =>
      match messages with
      | [] => .error ()
      | user_query :: _ =>
        let response := modelReply (finalPrompt user_query text)
        .ok { message := response, final_answer := response }

/-! ### Concrete sample data (used by witnesses and counterexamples) -/

/-- A concrete initial sub-task state, as dispatched by the planner
(`attempt = 0`, `completed = False`). -/
def sampleState : WebSearchState :=
  { task_id := "0"
    task_description := "東京の天気"
    task_result := some "draft"
    search_queries := []
    search_results := []
    feedback := none
    attempt := 0
    completed := false
    tasks := [] }

/-- An evaluator output that keeps asking for a new search round. -/
def evalNeedSearch : TaskEvaluation :=
  { is_satisfactory := false
    need := some .search
    reason := "検索結果が不十分"
    feedback := some "別のクエリで検索してください" }

/-- An evaluator output that is satisfied with the draft. -/
def evalSat : TaskEvaluation :=
  { is_satisfactory := true
    need := none
    reason := "十分"
    feedback := none }

/-- An evaluator output asking for a regenerated draft. -/
def evalNeedGenerate : TaskEvaluation :=
  { is_satisfactory := false
    need := some .generate
    reason := "結果が不十分"
    feedback := some "結果を改善してください" }

/-- The inconsistent evaluator output: unsatisfied but no `need`. -/
def evalInconsistent : TaskEvaluation :=
  { is_satisfactory := false
    need := none
    reason := "矛盾"
    feedback := none }

/-- A concrete search result, standing for the contribution of a
successful sibling query in the same round. -/
def sampleResult : SearchResult :=
  { query := "Tokyo weather"
    title := "Weather"
    url := "https://example.com/tokyo"
    snippet := "sunny"
    content := some "sunny all day" }

/-- A provider whose call raises for every query. -/
def demoFailProvider : String → Nat → Except Unit (List ProviderResult) :=
  fun _ _ => .error ()

/-- A provider returning one fixed hit. -/
def demoProvider : String → Nat → Except Unit (List ProviderResult) :=
  fun _ _ => .ok [{ link := "https://example.com/a"
                    title := "A"
                    snippet := "snip" }]

/-- A provider returning two fixed hits. -/
def demoProvider2 : String → Nat → Except Unit (List ProviderResult) :=
  fun _ _ => .ok [{ link := "https://example.com/a"
                    title := "A"
                    snippet := "snip-a" },
                  { link := "https://example.com/b"
                    title := "B"
                    snippet := "snip-b" }]

/-- A page fetch that succeeds for every url with a fixed body. -/
def demoFetchOk : String → Nat → Except Unit String :=
  fun _ _ => .ok "line one\n\n\nline two  "

/-- A page fetch that times out on `https://example.com/b` only. -/
def demoFetchBTimesOut : String → Nat → Except Unit String :=
  fun url _ => if url = "https://example.com/b" then .error ()
               else .ok "line one\n\n\nline two  "

/-- A concrete task list with two completed tasks. -/
def sampleTasks : List Task :=
  [{ task_id := "0", task_description := "東京", task_result := some "晴れ" },
   { task_id := "1", task_description := "埼玉", task_result := some "雨" }]

/-- A two-task plan. -/
def samplePlan : TaskPlan :=
  { tasks := [{ task_description := "東京の天気" },
              { task_description := "埼玉の天気" }]
    reason := "都市ごとに独立に検索できる" }

/-! ### Helper lemmas about the evaluator -/

theorem evaluate_attempt_eq (s : WebSearchState) (e : TaskEvaluation) :
    (evaluate_task_result s e).update.attempt = s.attempt + 1 := by
  simp only [evaluate_task_result]
  split
  · rfl
  · split
    · rfl
    · split <;> rfl

theorem evaluate_goto_end_of_attempt (s : WebSearchState)
    (e : TaskEvaluation) (h : 1 ≤ s.attempt) :
    (evaluate_task_result s e).goto = .«END» := by
  simp only [evaluate_task_result]
  rw [if_pos (Or.inr (by omega))]

theorem evaluate_completed_of_goto_end (s : WebSearchState)
    (e : TaskEvaluation) (h : (evaluate_task_result s e).goto = .«END») :
    (evaluate_task_result s e).update.completed = some true := by
  by_cases h1 : e.is_satisfactory = true ∨ 1 ≤ s.attempt
  · simp [evaluate_task_result, h1]
  · by_cases h2 : e.need = some Need.search
    · simp [evaluate_task_result, h1, h2] at h
    · by_cases h3 : e.need = some Need.generate
      · simp [evaluate_task_result, h1, h2, h3] at h
      · simp [evaluate_task_result, h1, h2, h3]

theorem applyEvalUpdate_attempt (s : WebSearchState) (u : EvalUpdate) :
    (applyEvalUpdate s u).attempt = u.attempt := rfl

theorem applyEvalUpdate_completed_some (s : WebSearchState) (u : EvalUpdate)
    (b : Bool) (h : u.completed = some b) :
    (applyEvalUpdate s u).completed = b := by
  simp [applyEvalUpdate, h]

/-! ### C1 -/

/-- C1: from the initial attempt counter 0, the attempt counter of a
sub-task never exceeds 2 over any sequence of evaluation rounds, and as
soon as two evaluator outputs have been consumed the loop has marked the
task complete and routed to `END`, whatever the evaluator returned. -/
theorem claim1_attempt_capped_and_terminates (s : WebSearchState)
    (es : List TaskEvaluation) (h0 : s.attempt = 0) :
    (eval_rounds s es).1.attempt ≤ 2 ∧
      (2 ≤ es.length →
        (eval_rounds s es).2 = true ∧
          (eval_rounds s es).1.completed = true) := by
  match es with
  | [] =>
    refine ⟨by simp [eval_rounds, h0], ?_⟩
    intro h
    simp at h
  | [e1] =>
    have ha := evaluate_attempt_eq s e1
    refine ⟨?_, ?_⟩
    · simp only [eval_rounds]
      split
      · simp [applyEvalUpdate_attempt, ha, h0]
      · simp [eval_rounds, applyEvalUpdate_attempt, ha, h0]
    · intro h
      simp at h
  | e1 :: e2 :: rest =>
    have ha1 := evaluate_attempt_eq s e1
    simp only [eval_rounds]
    split
    case isTrue hg =>
      have hc := evaluate_completed_of_goto_end s e1 hg
      refine ⟨by simp [applyEvalUpdate_attempt, ha1, h0], fun _ => ?_⟩
      exact ⟨rfl, applyEvalUpdate_completed_some s _ true hc⟩
    case isFalse hg =>
      have hs1a :
          (applyEvalUpdate s (evaluate_task_result s e1).update).attempt
            = 1 := by
        simp [applyEvalUpdate_attempt, ha1, h0]
      have hg2 := evaluate_goto_end_of_attempt
        (applyEvalUpdate s (evaluate_task_result s e1).update) e2
        (by omega)
      have ha2 := evaluate_attempt_eq
        (applyEvalUpdate s (evaluate_task_result s e1).update) e2
      have hc2 := evaluate_completed_of_goto_end
        (applyEvalUpdate s (evaluate_task_result s e1).update) e2 hg2
      simp only [eval_rounds, hg2, if_pos]
      refine ⟨by simp [applyEvalUpdate_attempt, ha2, ha1, h0], fun _ => ?_⟩
      exact ⟨by trivial, applyEvalUpdate_completed_some _ _ true hc2⟩

/-- Witness for C1 at a concrete state and a two-round hostile evaluator. -/
theorem claim1_witness :
    (eval_rounds sampleState [evalNeedSearch, evalNeedSearch]).1.attempt ≤ 2 ∧
      (2 ≤ [evalNeedSearch, evalNeedSearch].length →
        (eval_rounds sampleState [evalNeedSearch, evalNeedSearch]).2 = true ∧
          (eval_rounds sampleState
            [evalNeedSearch, evalNeedSearch]).1.completed = true) :=
  claim1_attempt_capped_and_terminates sampleState
    [evalNeedSearch, evalNeedSearch] rfl

/-! ### C2 -/

/-- C2: the evaluator's decision rule, in order: the attempt counter is
incremented first; if the draft is satisfactory or the incremented
counter has reached 2, the task is marked complete and
`{task_id, task_description, task_result}` is published to the shared
task list; else `need = search` routes back to query generation,
`need = generate` routes back to result generation, and the inconsistent
case (unsatisfactory, no `need`) force-completes with the same published
record. -/
theorem claim2_evaluator_decision_rule (s : WebSearchState)
    (e : TaskEvaluation) :
    (evaluate_task_result s e).update.attempt = s.attempt + 1 ∧
    ((e.is_satisfactory = true ∨ 2 ≤ s.attempt + 1) →
      evaluate_task_result s e =
        { update := { attempt := s.attempt + 1
                      completed := some true
                      tasks := some [{ task_id := s.task_id
                                       task_description := s.task_description
                                       task_result :=
                                         some (s.task_result.getD "") }]
                      search_results := none
                      feedback := none }
          goto := .«END» }) ∧
    (e.is_satisfactory = false → s.attempt + 1 < 2 →
      e.need = some .search →
      evaluate_task_result s e =
        { update := { attempt := s.attempt + 1
                      completed := none
                      tasks := none
                      search_results := some []
                      feedback := some e.feedback }
          goto := .generate_search_queries }) ∧
    (e.is_satisfactory = false → s.attempt + 1 < 2 →
      e.need = some .generate →
      evaluate_task_result s e =
        { update := { attempt := s.attempt + 1
                      completed := none
                      tasks := none
                      search_results := none
                      feedback := some e.feedback }
          goto := .generate_task_result }) ∧
    (e.is_satisfactory = false → s.attempt + 1 < 2 → e.need = none →
      evaluate_task_result s e =
        { update := { attempt := s.attempt + 1
                      completed := some true
                      tasks := some [{ task_id := s.task_id
                                       task_description := s.task_description
                                       task_result :=
                                         some (s.task_result.getD "") }]
                      search_results := none
                      feedback := none }
          goto := .«END» }) := by
  refine ⟨evaluate_attempt_eq s e, ?_, ?_, ?_, ?_⟩
  · rintro (h | h)
    · simp [evaluate_task_result, h]
    · have h1 : 1 ≤ s.attempt := by omega
      simp [evaluate_task_result, h1]
  · intro hsat hlt hneed
    have h1 : ¬1 ≤ s.attempt := by omega
    simp [evaluate_task_result, hsat, h1, hneed]
  · intro hsat hlt hneed
    have h1 : ¬1 ≤ s.attempt := by omega
    simp [evaluate_task_result, hsat, h1, hneed]
  · intro hsat hlt hneed
    have h1 : ¬1 ≤ s.attempt := by omega
    simp [evaluate_task_result, hsat, h1, hneed]

/-- Witness for C2: each of the four decision branches exercised at a
concrete first-round state. -/
theorem claim2_witness :
    (evaluate_task_result sampleState evalSat).goto = .«END» ∧
    (evaluate_task_result sampleState evalNeedSearch).goto
      = .generate_search_queries ∧
    (evaluate_task_result sampleState evalNeedGenerate).goto
      = .generate_task_result ∧
    (evaluate_task_result sampleState evalInconsistent).goto = .«END» := by
  refine ⟨?_, ?_, ?_, ?_⟩
  · rw [(claim2_evaluator_decision_rule sampleState evalSat).2.1
      (Or.inl rfl)]
  · rw [(claim2_evaluator_decision_rule sampleState evalNeedSearch).2.2.1
      rfl (by decide) rfl]
  · rw [(claim2_evaluator_decision_rule sampleState evalNeedGenerate).2.2.2.1
      rfl (by decide) rfl]
  · rw [(claim2_evaluator_decision_rule sampleState evalInconsistent).2.2.2.2
      rfl (by decide) rfl]

/-! ### C3 -/

/-- C3, counterexample to the claim as stated: a failed query degrades to
an empty `search_results` update, but merging that explicit empty update
after a sibling query's non-empty contribution does NOT leave the sibling
results intact — the reducer clears the whole list, losing
`sampleResult`. -/
theorem claim3_counterexample :
    (execute_search "Tokyo weather" demoFailProvider
      demoFetchOk).search_results = [] ∧
    merge_search_results (some [sampleResult])
      (some (execute_search "Tokyo weather" demoFailProvider
        demoFetchOk).search_results) = [] ∧
    sampleResult ∉
      merge_search_results (some [sampleResult])
        (some (execute_search "Tokyo weather" demoFailProvider
          demoFetchOk).search_results) := by
  refine ⟨rfl, rfl, ?_⟩
  intro h
  simp [merge_search_results, execute_search, demoFailProvider] at h

/-- C3 (amended): a provider-level failure for a query makes
`execute_search` return an empty result update and continue to the next
node instead of raising; merged as the first contribution the empty
update preserves whatever the round's other queries add afterwards, but
merged after a non-empty accumulated list the explicit empty update
clears it. -/
theorem claim3_provider_failure_degrades (query : String)
    (provider : String → Nat → Except Unit (List ProviderResult))
    (fetch : String → Nat → Except Unit String)
    (hp : provider query 2 = .error ()) :
    (execute_search query provider fetch).search_results = [] ∧
    (execute_search query provider fetch).goto = .generate_task_result ∧
    (∀ other : List SearchResult,
      merge_search_results
        (some (execute_search query provider fetch).search_results)
        (some other) = other) ∧
    (∀ other : List SearchResult,
      merge_search_results (some other)
        (some (execute_search query provider fetch).search_results)
          = []) := by
  by_cases hq : query = ""
  · refine ⟨by simp [execute_search, hq], by simp [execute_search, hq], ?_, ?_⟩
    · intro other
      simp [execute_search, hq, merge_search_results]
    · intro other
      simp [execute_search, hq, merge_search_results]
  · refine ⟨by simp [execute_search, hq, hp], by simp [execute_search, hq, hp],
      ?_, ?_⟩
    · intro other
      simp [execute_search, hq, hp, merge_search_results]
    · intro other
      simp [execute_search, hq, hp, merge_search_results]

/-- Witness for the amended C3 at a concrete failing provider and a
concrete sibling contribution. -/
theorem claim3_witness :
    (execute_search "Saitama weather" demoFailProvider
      demoFetchOk).search_results = [] ∧
    merge_search_results
      (some (execute_search "Saitama weather" demoFailProvider
        demoFetchOk).search_results)
      (some [sampleResult]) = [sampleResult] ∧
    merge_search_results (some [sampleResult])
      (some (execute_search "Saitama weather" demoFailProvider
        demoFetchOk).search_results) = [] := by
  have h := claim3_provider_failure_degrades "Saitama weather"
    demoFailProvider demoFetchOk rfl
  exact ⟨h.1, h.2.2.1 [sampleResult], h.2.2.2 [sampleResult]⟩

/-! ### C4 -/

/-- C4: when the evaluator reports `need = search` (with the draft
unsatisfactory and the incremented attempt counter still below 2), the
command routes back to query generation, its update carries the explicit
empty `search_results` list and the feedback string, and applying that
update through the reducer leaves the sub-task's search-result list empty
before the next round. -/
theorem claim4_need_search_clears_results (s : WebSearchState)
    (e : TaskEvaluation) (hsat : e.is_satisfactory = false)
    (hlt : s.attempt + 1 < 2) (hneed : e.need = some .search) :
    (evaluate_task_result s e).goto = .generate_search_queries ∧
    (evaluate_task_result s e).update.search_results = some [] ∧
    (evaluate_task_result s e).update.feedback = some e.feedback ∧
    (applyEvalUpdate s (evaluate_task_result s e).update).search_results
      = [] ∧
    (applyEvalUpdate s (evaluate_task_result s e).update).feedback
      = e.feedback := by
  have h1 : ¬1 ≤ s.attempt := by omega
  refine ⟨?_, ?_, ?_, ?_, ?_⟩ <;>
    simp [evaluate_task_result, applyEvalUpdate, hsat, h1, hneed,
      merge_search_results]

/-- Witness for C4 at a concrete mid-round state whose search-result list
is non-empty before the transition. -/
theorem claim4_witness :
    (evaluate_task_result
      { sampleState with search_results := [sampleResult] }
      evalNeedSearch).goto = .generate_search_queries ∧
    (evaluate_task_result
      { sampleState with search_results := [sampleResult] }
      evalNeedSearch).update.search_results = some [] ∧
    (evaluate_task_result
      { sampleState with search_results := [sampleResult] }
      evalNeedSearch).update.feedback = some evalNeedSearch.feedback ∧
    (applyEvalUpdate { sampleState with search_results := [sampleResult] }
      (evaluate_task_result
        { sampleState with search_results := [sampleResult] }
        evalNeedSearch).update).search_results = [] ∧
    (applyEvalUpdate { sampleState with search_results := [sampleResult] }
      (evaluate_task_result
        { sampleState with search_results := [sampleResult] }
        evalNeedSearch).update).feedback = evalNeedSearch.feedback :=
  claim4_need_search_clears_results
    { sampleState with search_results := [sampleResult] }
    evalNeedSearch rfl (by decide) rfl

/-! ### C5 -/

/-- C5: for a non-empty update whose ids are internally distinct, applied
to an existing list with distinct ids, `update_task` keeps every entry of
the update (replacing same-id entries), keeps every existing entry whose
id is not updated, produces nothing else, and the merged list still has
no duplicate ids. -/
theorem claim5_update_task_merge (existing «new» : List Task)
    (hne : «new» ≠ [])
    (hex : (existing.map Task.task_id).Nodup)
    (hnew : («new».map Task.task_id).Nodup) :
    (∀ t ∈ «new», t ∈ update_task existing «new») ∧
    (∀ t ∈ existing, t.task_id ∉ «new».map Task.task_id →
      t ∈ update_task existing «new») ∧
    (∀ t ∈ update_task existing «new»,
      t ∈ «new» ∨ (t ∈ existing ∧ t.task_id ∉ «new».map Task.task_id)) ∧
    ((update_task existing «new»).map Task.task_id).Nodup := by
  simp only [update_task, if_neg hne]
  refine ⟨?_, ?_, ?_, ?_⟩
  · intro t ht
    exact List.mem_append_right _ ht
  · intro t ht hid
    refine List.mem_append_left _ ?_
    rw [List.mem_filter]
    exact ⟨ht, by simpa using hid⟩
  · intro t ht
    rcases List.mem_append.1 ht with h | h
    · rw [List.mem_filter] at h
      exact Or.inr ⟨h.1, by simpa using h.2⟩
    · exact Or.inl h
  · rw [List.map_append]
    refine List.Nodup.append ?_ hnew ?_
    · exact hex.sublist ((List.filter_sublist existing).map Task.task_id)
    · intro a ha hb
      rcases List.mem_map.1 ha with ⟨t, ht, rfl⟩
      rw [List.mem_filter] at ht
      exact absurd hb (by simpa using ht.2)

/-- A concrete task update replacing id "1" and introducing id "2". -/
def sampleUpdate : List Task :=
  [{ task_id := "1", task_description := "埼玉", task_result := some "曇り" },
   { task_id := "2", task_description := "千葉", task_result := some "晴れ" }]

/-- Witness for C5 on concrete lists: the replacing entry and the
untouched entry are both in the merged list, whose ids stay distinct. -/
theorem claim5_witness :
    ({ task_id := "1", task_description := "埼玉",
       task_result := some "曇り" } : Task)
      ∈ update_task sampleTasks sampleUpdate ∧
    ({ task_id := "0", task_description := "東京",
       task_result := some "晴れ" } : Task)
      ∈ update_task sampleTasks sampleUpdate ∧
    ((update_task sampleTasks sampleUpdate).map Task.task_id).Nodup := by
  have h := claim5_update_task_merge sampleTasks sampleUpdate
    (by decide) (by decide) (by decide)
  exact ⟨h.1 _ (by decide), h.2.1 _ (by decide) (by decide), h.2.2.2⟩

/-! ### C10 -/

/-- C10: an empty task update is an identity for `update_task`, in
contrast to the search-result reducer, where an explicitly signaled empty
list clears the accumulated results. -/
theorem claim10_empty_update_contrast (existing : List Task)
    (l : List SearchResult) :
    update_task existing [] = existing ∧
    merge_search_results (some l) (some []) = [] := by
  simp [update_task, merge_search_results]

/-! ### C6 -/

/-- C6: a plan with zero tasks makes `plan_tasks` fail (the run aborts,
nothing is retried); a plan with N ≥ 1 tasks yields N initial Tasks under
the index-derived ids `str(idx)` and N `Send` packets, one websearch
controller per task, each starting with `attempt = 0` and
`completed = False`. -/
theorem claim6_plan_tasks (plan : TaskPlan) :
    (plan.tasks = [] → plan_tasks plan = .error ()) ∧
    (plan.tasks ≠ [] → (plan_tasks plan).isOk = true) ∧
    (∀ cmd, plan_tasks plan = .ok cmd →
      cmd.update_tasks.length = plan.tasks.length ∧
      cmd.goto.length = plan.tasks.length ∧
      (∀ (i : Nat) (t : PlanTask), plan.tasks[i]? = some t →
        cmd.update_tasks[i]? =
          some ({ task_id := toString i
                  task_description := t.task_description
                  task_result := none } : Task) ∧
        cmd.goto[i]? =
          some ({ node := "websearch"
                  task_id := toString i
                  task_description := t.task_description
                  attempt := 0
                  completed := false } : SendPacket))) := by
  refine ⟨fun h => by simp [plan_tasks, h], fun h => ?_, fun cmd hcmd => ?_⟩
  · simp [plan_tasks, h, Except.isOk, Except.toBool]
  · by_cases h : plan.tasks = []
    · simp [plan_tasks, h] at hcmd
    · simp only [plan_tasks, if_neg h, Except.ok.injEq] at hcmd
      cases hcmd
      refine ⟨by simp, by simp, fun i t ht => ?_⟩
      constructor <;>
        simp [List.getElem?_map, List.getElem?_enum, ht]

/-- The command produced by `plan_tasks` on the two-task sample plan. -/
def samplePlanCmd : PlannerCommand :=
  { update_tasks :=
      [{ task_id := "0", task_description := "東京の天気",
         task_result := none },
       { task_id := "1", task_description := "埼玉の天気",
         task_result := none }]
    goto :=
      [{ node := "websearch", task_id := "0",
         task_description := "東京の天気", attempt := 0, completed := false },
       { node := "websearch", task_id := "1",
         task_description := "埼玉の天気", attempt := 0,
         completed := false }] }

/-- Witness for C6 on the concrete two-task plan. -/
theorem claim6_witness :
    samplePlanCmd.update_tasks.length = samplePlan.tasks.length ∧
    samplePlanCmd.goto.length = samplePlan.tasks.length ∧
    samplePlanCmd.update_tasks[0]? =
      some { task_id := toString 0, task_description := "東京の天気",
             task_result := none } ∧
    samplePlanCmd.goto[1]? =
      some { node := "websearch", task_id := toString 1,
             task_description := "埼玉の天気", attempt := 0,
             completed := false } := by
  have h := (claim6_plan_tasks samplePlan).2.2 samplePlanCmd rfl
  exact ⟨h.1, h.2.1,
    (h.2.2 0 { task_description := "東京の天気" } rfl).1,
    (h.2.2 1 { task_description := "埼玉の天気" } rfl).2⟩

/-! ### C7 -/

/-- The per-task lines of `task_results_text`, characterized: success
returns exactly one line per task, in order, numbered from the start
index, each carrying the task's description and result. -/
theorem task_lines_eq (ts : List Task) :
    ∀ (n : Nat) (lines : List String), task_lines n ts = .ok lines →
      lines = (ts.enumFrom n).map (fun p =>
        "【タスク" ++ toString (p.1 + 1) ++ "】" ++ p.2.task_description
          ++ "\n結果: " ++ p.2.task_result.getD "") := by
  induction ts with
  | nil =>
    intro n lines h
    simp only [task_lines, Except.ok.injEq] at h
    simp [← h]
  | cons t ts ih =>
    intro n lines h
    simp only [task_lines] at h
    cases hr : t.task_result with
    | none =>
      rw [hr] at h
      simp at h
    | some r =>
      rw [hr] at h
      cases hl : task_lines (n + 1) ts with
      | error e =>
        rw [hl] at h
        simp [Except.map] at h
      | ok rest =>
        rw [hl] at h
        simp only [Except.map, Except.ok.injEq] at h
        simp [← h, List.enumFrom, ih (n + 1) rest hl, hr]

/-- C7: synthesis fails on an empty merged task list; on a non-empty one
it joins every task's description and result into the prompt, asks the
model, and returns the model's reply both as the appended message and as
`final_answer`. -/
theorem claim7_generate_final_answer (tasks : List Task)
    (messages : List String) (modelReply : String → String) :
    (tasks = [] →
      generate_final_answer tasks messages modelReply = .error ()) ∧
    (∀ text user_query rest, tasks ≠ [] →
      task_results_text tasks = .ok text →
      messages = user_query :: rest →
      generate_final_answer tasks messages modelReply =
        .ok { message := modelReply (finalPrompt user_query text)
              final_answer := modelReply (finalPrompt user_query text) }) ∧
    (∀ text, task_results_text tasks = .ok text →
      text = String.intercalate "\n\n" (tasks.enum.map (fun p =>
        "【タスク" ++ toString (p.1 + 1) ++ "】" ++ p.2.task_description
          ++ "\n結果: " ++ p.2.task_result.getD ""))) := by
  refine ⟨fun h => by simp [generate_final_answer, h],
    fun text user_query rest hne hok hmsg => ?_, fun text hok => ?_⟩
  · subst hmsg
    simp only [generate_final_answer, if_neg hne, hok]
  · simp only [task_results_text] at hok
    cases hl : task_lines 0 tasks with
    | error e =>
      rw [hl] at hok
      simp [Except.map] at hok
    | ok lines =>
      rw [hl] at hok
      simp only [Except.map, Except.ok.injEq] at hok
      rw [← hok, task_lines_eq tasks 0 lines hl]
      rfl

/-- Witness for C7 on the concrete completed task list. -/
theorem claim7_witness :
    generate_final_answer sampleTasks ["今日の東京と埼玉の天気を教えて"]
      (fun _ => "回答") = .ok { message := "回答", final_answer := "回答" } :=
  (claim7_generate_final_answer sampleTasks ["今日の東京と埼玉の天気を教えて"]
    (fun _ => "回答")).2.1
    "【タスク1】東京\n結果: 晴れ\n\n【タスク2】埼玉\n結果: 雨"
    "今日の東京と埼玉の天気を教えて" [] (by decide) rfl rfl

/-! ### C8 and C9 -/

theorem pySlice_length (s : String) (n : Nat) :
    (pySlice s n).length ≤ n := by
  show (s.data.take n).length ≤ n
  rw [List.length_take]
  exact min_le_left _ _

theorem fetch_result_url (query : String)
    (fetch : String → Nat → Except Unit String) (r : ProviderResult) :
    (fetch_result query fetch r).url = r.link := by
  simp only [fetch_result]
  split <;> rfl

theorem search_goto_unique (g : SearchGoto) :
    g = .generate_task_result := by
  cases g
  rfl

/-- Membership in the output of `execute_search` comes from mapping
`fetch_result` over the provider hits. -/
theorem mem_execute_search (query : String)
    (provider : String → Nat → Except Unit (List ProviderResult))
    (fetch : String → Nat → Except Unit String) (sr : SearchResult)
    (hsr : sr ∈ (execute_search query provider fetch).search_results) :
    ∃ r : ProviderResult, sr = fetch_result query fetch r := by
  by_cases hq : query = ""
  · simp [execute_search, hq] at hsr
  · simp only [execute_search, if_neg hq] at hsr
    split at hsr
    · simp at hsr
    · split at hsr
      · simp at hsr
      · simp only [List.mem_map] at hsr
        obtain ⟨r, _, rfl⟩ := hsr
        exact ⟨r, rfl⟩

/-- C8: `execute_search` asks the provider for `num_results = 2` (its
output depends only on the provider's answer at 2), emits exactly one
entry per provider hit, routes on to result generation, and a failed or
timed-out page fetch degrades only that entry to the snippet without a
`content` key, while a successful fetch stores the cleaned truncated
text — no branch raises. -/
theorem claim8_fetch_failure_degrades_per_result (query : String)
    (provider provider' : String → Nat → Except Unit (List ProviderResult))
    (fetch : String → Nat → Except Unit String)
    (results : List ProviderResult)
    (hp : provider query 2 = .ok results) :
    (execute_search query provider fetch).goto = .generate_task_result ∧
    (provider' query 2 = provider query 2 →
      execute_search query provider' fetch
        = execute_search query provider fetch) ∧
    (query ≠ "" →
      (execute_search query provider fetch).search_results.length
        = results.length ∧
      (∀ (i : Nat) (r : ProviderResult), results[i]? = some r →
        (fetch r.link 15 = .error () →
          (execute_search query provider fetch).search_results[i]? =
            some ({ query := query, title := r.title, url := r.link,
                    snippet := r.snippet, content := none }
              : SearchResult)) ∧
        (∀ raw, fetch r.link 15 = .ok raw →
          (execute_search query provider fetch).search_results[i]? =
            some ({ query := query, title := r.title, url := r.link,
                    snippet := r.snippet,
                    content := some (pySlice (clean_text raw) 2500) }
              : SearchResult)))) := by
  refine ⟨search_goto_unique _, fun hpp => ?_, fun hq => ?_⟩
  · by_cases hq : query = ""
    · simp [execute_search, hq]
    · simp only [execute_search, if_neg hq, hpp]
  · simp only [execute_search, if_neg hq, hp]
    by_cases hrs : results = []
    · subst hrs
      refine ⟨by simp, fun i r hir => ?_⟩
      simp at hir
    · rw [if_neg hrs]
      refine ⟨by simp, fun i r hir => ?_⟩
      refine ⟨fun hf => ?_, fun raw hf => ?_⟩
      · simp [List.getElem?_map, hir, fetch_result, hf]
      · simp [List.getElem?_map, hir, fetch_result, hf]

/-- Witness for C8: two provider hits, the second page fetch times out
and keeps only its snippet; both entries are present. -/
theorem claim8_witness :
    (execute_search "Tokyo" demoProvider2
      demoFetchBTimesOut).search_results.length = 2 ∧
    (execute_search "Tokyo" demoProvider2
      demoFetchBTimesOut).search_results[1]? =
      some ({ query := "Tokyo", title := "B", url := "https://example.com/b",
              snippet := "snip-b", content := none } : SearchResult) := by
  have h := claim8_fetch_failure_degrades_per_result "Tokyo" demoProvider2
    demoProvider2 demoFetchBTimesOut
    [{ link := "https://example.com/a", title := "A", snippet := "snip-a" },
     { link := "https://example.com/b", title := "B", snippet := "snip-b" }]
    rfl
  have h3 := h.2.2 (by decide)
  exact ⟨h3.1,
    (h3.2 1 { link := "https://example.com/b", title := "B",
              snippet := "snip-b" } rfl).1 rfl⟩

/-- C9: every stored `content` is the cleaned page text truncated to its
first 2500 characters: when the fetch of a result's url succeeded with
body `raw`, the entry's content is `clean_text raw` sliced to 2500, and
any stored content has length at most 2500. -/
theorem claim9_content_truncated_to_2500 (query : String)
    (provider : String → Nat → Except Unit (List ProviderResult))
    (fetch : String → Nat → Except Unit String) :
    ∀ sr ∈ (execute_search query provider fetch).search_results,
      (∀ raw, fetch sr.url 15 = .ok raw →
        sr.content = some (pySlice (clean_text raw) 2500)) ∧
      (∀ c, sr.content = some c → c.length ≤ 2500) := by
  intro sr hsr
  obtain ⟨r, rfl⟩ := mem_execute_search query provider fetch sr hsr
  refine ⟨fun raw hraw => ?_, fun c hc => ?_⟩
  · rw [fetch_result_url] at hraw
    simp [fetch_result, hraw]
  · cases hf : fetch r.link 15 with
    | ok raw =>
      simp only [fetch_result, hf] at hc
      cases hc
      exact pySlice_length _ _
    | error e =>
      simp [fetch_result, hf] at hc

/-- Witness for C9 on a concrete successful fetch. -/
theorem claim9_witness :
    (pySlice (clean_text "line one\n\n\nline two  ") 2500).length
      ≤ 2500 := by
  have hmem :
      ({ query := "Tokyo", title := "A", url := "https://example.com/a",
         snippet := "snip",
         content := some (pySlice (clean_text "line one\n\n\nline two  ")
           2500) } : SearchResult)
        ∈ (execute_search "Tokyo" demoProvider demoFetchOk).search_results := by
    show _ ∈ [fetch_result "Tokyo" demoFetchOk
      { link := "https://example.com/a", title := "A", snippet := "snip" }]
    exact List.mem_singleton.mpr rfl
  have h := claim9_content_truncated_to_2500 "Tokyo" demoProvider demoFetchOk
    { query := "Tokyo", title := "A", url := "https://example.com/a",
      snippet := "snip",
      content := some (pySlice (clean_text "line one\n\n\nline two  ") 2500) }
    hmem
  exact h.2 _ rfl

end Agent
